import Mathlib

/-!
# Verification of the multimodal-content-gen pipeline

A shallow embedding, in Lean 4, of the content-generation pipeline of the
`multimodal-content-gen` repository (`app/main.py`, `app/schemas.py`,
`app/pipelines/{rag,promptify,text,image,score}.py`), together with
theorems settling the specification claims about it.

Modelling conventions:
* Python floats are modelled as `ℚ`.  Every numeric constant in the source
  is an exact decimal, and every value whose exact rounded form a theorem
  relies on is an exact multiple of 1/100 far from any rounding boundary,
  so binary-float noise never changes a 2-decimal rounding here.
* `round(x, 2)` is modelled as `round2` (floor of `100·x + 1/2`, over ℚ).
* External providers (OpenAI chat, DALL-E, S3, Pinecone, Jinja rendering)
  are parameters of an `Env` record: each call site receives the oracle's
  answer, `none`/`.error` meaning the documented "unavailable or failed"
  outcome that the source maps to its fallback branch.
* Python `str` is `String`; `len` is `String.length` (code points), `in`
  is substring search, `.strip()` is `String.trim`, `.lower()`/`.title()`
  are ASCII-accurate models (all strings the claims touch are ASCII).
* Fallible Python code (uncaught exceptions) is `Except String α`; the
  messages are abbreviations of the CPython ones (quotes dropped).
-/

namespace MCG

/-! ## String helpers (Python semantics) -/

/-- Is `pat` a contiguous sublist starting at the head of `s`?  Mirrors
Python substring matching at one position. -/
def listIsPrefix : List Char → List Char → Bool
  | [], _ => true
  | _ :: _, [] => false
  | a :: as, b :: bs => a == b && listIsPrefix as bs

/-- Does `pat` occur somewhere in `s`?  Auxiliary for `strContains`. -/
def strContainsAux (pat : List Char) : List Char → Bool
  | [] => listIsPrefix pat []
  | c :: rest => listIsPrefix pat (c :: rest) || strContainsAux pat rest

/-- Python `pat in s` (substring containment). -/
def strContains (s pat : String) : Bool :=
  strContainsAux pat.toList s.toList

/-- Python `s.lower()` (ASCII model). -/
def pyLower (s : String) : String :=
  String.mk (s.toList.map Char.toLower)

/-- Python `s.title()` (ASCII model): a letter is uppercased when not
preceded by a letter, lowercased otherwise. -/
def pyTitleAux : Bool → List Char → List Char
  | _, [] => []
  | prevAlpha, c :: rest =>
    let c' := if c.isAlpha then (if prevAlpha then c.toLower else c.toUpper) else c
    c' :: pyTitleAux c.isAlpha rest

def pyTitle (s : String) : String :=
  String.mk (pyTitleAux false s.toList)

def hexDigit (n : Nat) : Char :=
  (("0123456789ABCDEF".toList).getD n '0')

/-- Percent-encoding of one character (code-point model; all inputs the
claims use are ASCII, where this equals byte-wise UTF-8 encoding). -/
def percentEncode (c : Char) : String :=
  String.mk ['%', hexDigit (c.toNat / 16), hexDigit (c.toNat % 16)]

/-- Python `urllib.parse.quote_plus`: keep alphanumerics and `_.-~`,
turn spaces into `+`, percent-encode the rest. -/
def quote_plus (s : String) : String :=
  String.join (s.toList.map (fun c =>
    if c.isAlphanum || c == '_' || c == '.' || c == '-' || c == '~' then
      String.mk [c]
    else if c == ' ' then "+"
    else percentEncode c))

/-- Python `round(x, 2)` over ℚ.  (CPython rounds binary doubles half to
even; every value a theorem pins down is an exact multiple of 1/100, where
all conventions agree.) -/
def round2 (x : ℚ) : ℚ :=
  ((Int.floor (x * 100 + 1/2) : ℤ) : ℚ) / 100

/-- Python `str.format`-style substitution used by the source templates:
replace each `\x7bname\x7d` placeholder by its value.  (The templates
contain no escaped braces, and no substituted value re-introduces a
placeholder in the runs the claims describe.) -/
def pyFormat (template : String) (subs : List (String × String)) : String :=
  subs.foldl (fun acc kv => acc.replace ("\x7b" ++ kv.1 ++ "\x7d") kv.2) template

/-! ## Data model (`app/schemas.py`) -/

/-- `schemas.AudienceTarget` with its pydantic defaults. -/
structure AudienceTarget where
  age_range : String := "25-45"
  gender : String := "all"
  location : String := "global"
  interests : List String := []
  platform_preference : String := "all"
  deriving Repr, DecidableEq

/-- `schemas.BrandAssets` with its pydantic defaults. -/
structure BrandAssets where
  primary_color : String := "#10b981"
  secondary_color : String := "#059669"
  logo_url : Option String := none
  brand_voice : String := "professional"
  tone : String := "neutral"
  brand_values : List String := ["quality", "innovation", "trust"]
  deriving Repr, DecidableEq

/-- `schemas.GenerateRequest`.  `audience_target` and `brand_assets` are
`Optional[...] = None` in the source. -/
structure GenerateRequest where
  title : String
  brief : String
  brand_profile_id : String := "demo"
  channels : List String := []
  audience_target : Option AudienceTarget := none
  brand_assets : Option BrandAssets := none
  generate_variations : Bool := true
  content_length : String := "medium"
  include_emoji : Bool := false
  deriving Repr, DecidableEq

/-! ## External capabilities

Provider calls are oracle fields of `Env`.  `none` / `.error` stands for
the "unavailable, non-success status, or transport error" outcome that
each call site of the source maps to its documented fallback. -/

/-- An LLM chat capability: user prompt ↦ response content (`none` =
unavailable / non-success / unparsable, the cases the source treats
alike).  System personas, token budgets and temperatures are fixed
provider parameters folded into the oracle. -/
def LLMChat := String → Option String

structure Env where
  /-- `config.OPENAI_API_KEY` (`os.getenv`, so `Option`). -/
  openai_api_key : Option String
  /-- Outcome of `requests.post` to the chat-completions endpoint
  (`text.call_openai_api` body): `none` = non-200 or exception. -/
  chatApi : LLMChat
  /-- Outcome of `requests.post` to the image endpoint
  (`image.call_dalle_api` body): `none` = non-200 or exception. -/
  dalleApi : String → Option String
  /-- Whether `image.s3_client` was initialised (bucket+key+secret set). -/
  s3Configured : Bool
  /-- `image.store_image_in_s3` outcome: `true` = download+upload
  succeeded, `false` = exception (return the original URL). -/
  s3Upload : String → String → Bool
  s3Bucket : String
  s3Region : String
  /-- Whether `rag.pinecone_client` was initialised. -/
  pineconeAvailable : Bool
  /-- Result of the vector query in `rag.rag_retrieve`: `some text` = the
  joined `vector_context`, `none` = any exception in the `try` block. -/
  pineconeContext : Option String
  /-- `score.get_openai_client()`: `some llm` = client initialised,
  `none` = no key / initialisation failure (heuristic scoring mode). -/
  scoringClient : Option LLMChat
  /-- `jinja2.Template(template).render(...)` outcome on the rendering
  context (title, brief, channel, brand_profile_id, brand_context). -/
  render : String → List (String × String) → Except String String

/-- Python truthiness test `OPENAI_API_KEY and OPENAI_API_KEY.strip()`
used by `text.call_openai_api` / `image.generate_image` / `rag`. -/
def keyAvailable (k : Option String) : Bool :=
  match k with
  | none => false
  | some s => !(s == "") && !(s.trim == "")

/-- The environment with no provider credentials configured: no OpenAI
key, no S3, no Pinecone, no scoring capability.  The call oracles are
never consulted on this path (guards short-circuit), so they answer
`none`/`false`; Jinja rendering is local and succeeds on the repository's
own templates, which reference only supplied variables. -/
def noCredEnv : Env where
  openai_api_key := none
  chatApi := fun _ => none
  dalleApi := fun _ => none
  s3Configured := false
  s3Upload := fun _ _ => false
  s3Bucket := ""
  s3Region := "us-east-1"
  pineconeAvailable := false
  pineconeContext := none
  scoringClient := none
  render := fun t _ => .ok t

/-! ## Content scorer (`app/pipelines/score.py`) -/

/-- The argument of `score.score_content`: a dict holding the primary
copies and the image URLs (`main.generate` lines 81-84). -/
structure Content where
  copies : List String
  images : List String
  deriving Repr, DecidableEq

/-- The per-batch `metrics` sub-dict of a score report.  `copy_scores` /
`image_scores` are only present in evaluated mode (`none` = key absent in
the heuristic dicts). -/
structure ScoreMetrics where
  total_copies : Nat
  total_images : Nat
  avg_copy_length : ℚ
  copy_scores : Option (List ℚ)
  image_scores : Option (List ℚ)
  deriving Repr, DecidableEq

/-- The dict returned by `score.score_content`. -/
structure ScoreReport where
  overall_score : ℚ
  copy_score : ℚ
  image_score : ℚ
  brand_consistency : ℚ
  engagement_potential : ℚ
  metrics : ScoreMetrics
  deriving Repr, DecidableEq

/-- The body of `score.evaluate_copy_quality`'s `try` block: it builds a
prompt, then evaluates the name `openai_client`, which is defined nowhere
in the module (the module global is `client`), so CPython raises
`NameError` before the LLM is ever consulted. -/
def undefinedOpenaiClient : Except String ℚ :=
  .error "NameError: name openai_client is not defined"

/-- `score.evaluate_copy_quality` (lines 109-153): the `try` body dies on
the undefined name `openai_client`; the handler returns the default 0.7,
whatever the LLM capability would have answered. -/
def evaluate_copy_quality (_llm : LLMChat) (_copy : String) (_index : Nat) : ℚ :=
  match undefinedOpenaiClient with
  | .ok v => v
  | .error _ => 7/10

/-- `score.evaluate_image_quality` (lines 156-162): 0.8 for a truthy URL
not containing the substring `"placehold.co"`, 0.5 otherwise. -/
def evaluate_image_quality (image_url : String) (_index : Nat) : ℚ :=
  if !(image_url == "") && !(strContains image_url "placehold.co") then 8/10
  else 5/10

/-- `score.evaluate_brand_consistency` (lines 165-201): same undefined
`openai_client`; the handler returns 0.8. -/
def evaluate_brand_consistency (_llm : LLMChat) (_copies : List String) : ℚ :=
  match undefinedOpenaiClient with
  | .ok v => v
  | .error _ => 8/10

/-- `score.evaluate_engagement_potential` (lines 204-241): same undefined
`openai_client`; the handler returns 0.7. -/
def evaluate_engagement_potential (_llm : LLMChat) (_copies : List String) : ℚ :=
  match undefinedOpenaiClient with
  | .ok v => v
  | .error _ => 7/10

/-- The `metrics` dict shared by both heuristic branches of
`score.score_content`. -/
def basicMetrics (copies images : List String) : ScoreMetrics where
  total_copies := copies.length
  total_images := images.length
  avg_copy_length :=
    ((copies.map String.length).sum : ℚ) / (max copies.length 1 : ℚ)
  copy_scores := none
  image_scores := none

/-- The heuristic-mode report of `score.score_content` (lines 32-44). -/
def heuristicReport (copies images : List String) : ScoreReport where
  overall_score :=
    round2 (min 1 ((1/2 : ℚ) + (5/100) * (copies.length : ℚ) + (2/100) * (images.length : ℚ)))
  copy_score := 7/10
  image_score := 6/10
  brand_consistency := 8/10
  engagement_potential := 7/10
  metrics := basicMetrics copies images

/-- `score.score_content` (lines 21-106).  `client = none` is the
heuristic branch (line 32).  In the evaluated branch nothing in the `try`
block can raise (the per-item evaluators catch internally, the divisors
are clamped by `max(..., 1)`), so the line-92 fallback is dead code. -/
def score_content (client : Option LLMChat) (content : Content) : ScoreReport :=
  let copies := content.copies
  let images := content.images
  match client with
  | none => heuristicReport copies images
  | some llm =>
    let copy_scores := copies.enum.map (fun ic => evaluate_copy_quality llm ic.2 ic.1)
    let image_scores := images.enum.map (fun iu => evaluate_image_quality iu.2 iu.1)
    let avg_copy_score := copy_scores.sum / (max copy_scores.length 1 : ℚ)
    let avg_image_score := image_scores.sum / (max image_scores.length 1 : ℚ)
    let brand_consistency := evaluate_brand_consistency llm copies
    let engagement_potential := evaluate_engagement_potential llm copies
    let overall_score :=
      avg_copy_score * (4/10) + avg_image_score * (3/10) +
      brand_consistency * (2/10) + engagement_potential * (1/10)
    { overall_score := round2 overall_score
      copy_score := round2 avg_copy_score
      image_score := round2 avg_image_score
      brand_consistency := round2 brand_consistency
      engagement_potential := round2 engagement_potential
      metrics := { basicMetrics copies images with
                    copy_scores := some copy_scores
                    image_scores := some image_scores } }

/-! ## Prompt composer (`app/pipelines/promptify.py`)

The three Jinja template bodies are embedded verbatim; `\x7b`/`\x7d` are
the literal brace characters of the source. -/

def promptifyDefaultTemplate : String :=
  "\nYou are a professional marketing copywriter creating content for \x7b\x7b channel \x7d\x7d.\n\nCampaign Details:\n- Title: \x7b\x7b title \x7d\x7d\n- Brief: \x7b\x7b brief \x7d\x7d\n- Brand Profile: \x7b\x7b brand_profile_id \x7d\x7d\n\nBrand Context:\n\x7b\x7b brand_context \x7d\x7d\n\nCreate compelling marketing copy that:\n1. Aligns with the brand voice and values\n2. Speaks to the target audience\n3. Includes a clear call-to-action\n4. Is optimized for \x7b\x7b channel \x7d\x7d\n5. Drives engagement and conversions\n\nRequirements:\n- Channel-specific format and length\n- Brand-consistent tone\n- Compelling hook\n- Clear value proposition\n- Strong call-to-action\n"

def promptifyEmailTemplate : String :=
  "\nCreate an email marketing campaign for \x7b\x7b title \x7d\x7d.\n\nCampaign Brief: \x7b\x7b brief \x7d\x7d\nBrand Profile: \x7b\x7b brand_profile_id \x7d\x7d\n\nBrand Context:\n\x7b\x7b brand_context \x7d\x7d\n\nRequirements:\n- Subject line (max 50 characters)\n- Email body (max 200 words)\n- Clear call-to-action\n- Professional but engaging tone\n- Mobile-friendly format\n- Personalization elements\n"

def promptifySocialMediaTemplate : String :=
  "\nCreate social media content for \x7b\x7b channel \x7d\x7d about \x7b\x7b title \x7d\x7d.\n\nCampaign Brief: \x7b\x7b brief \x7d\x7d\nBrand Profile: \x7b\x7b brand_profile_id \x7d\x7d\n\nBrand Context:\n\x7b\x7b brand_context \x7d\x7d\n\nRequirements:\n- Platform-optimized format\n- Engaging hook\n- Visual storytelling elements\n- Relevant hashtags\n- Brand voice consistency\n- Shareability focus\n"

/-- `promptify.PROMPT_TEMPLATES`. -/
def PROMPT_TEMPLATES : List (String × String) :=
  [("default", promptifyDefaultTemplate),
   ("email", promptifyEmailTemplate),
   ("social_media", promptifySocialMediaTemplate)]

/-- Template-family selection of `promptify.promptify` (lines 79-85). -/
def promptify_template_key (channel : String) : String :=
  if channel ∈ ["email"] then "email"
  else if channel ∈ ["instagram", "facebook", "twitter"] then "social_media"
  else "default"

/-- The argument dict of `promptify.promptify` as built by its caller
(`main.generate` passes `enhanced_payload`, which has no `channel` key, so
that field is `none` there); `none` selects the `.get` default. -/
structure PromptifyInput where
  title : Option String := none
  brief : Option String := none
  channel : Option String := none
  brand_profile_id : Option String := none
  brand_context : Option String := none

/-- `promptify.promptify` (lines 71-103): select a template by channel,
render it with Jinja (the `render` oracle), `.strip()` the result; on a
rendering exception fall back to the fixed minimal prompt. -/
def promptify (render : String → List (String × String) → Except String String)
    (input : PromptifyInput) : String :=
  let title := input.title.getD "Untitled"
  let brief := input.brief.getD ""
  let channel := input.channel.getD "general"
  let brand_profile_id := input.brand_profile_id.getD "demo"
  let brand_context := input.brand_context.getD "No specific brand context provided."
  let template_key := promptify_template_key channel
  let template_str :=
    ((PROMPT_TEMPLATES.find? (fun kv => kv.1 == template_key)).map (·.2)).getD
      promptifyDefaultTemplate
  match render template_str
      [("title", title), ("brief", brief), ("channel", channel),
       ("brand_profile_id", brand_profile_id), ("brand_context", brand_context)] with
  | .ok prompt => prompt.trim
  | .error _ => "Create marketing content for " ++ channel ++ ": " ++ title ++ " - " ++ brief

/-! ## Channel text generator (`app/pipelines/text.py`) -/

/-- `text.call_openai_api` (lines 6-39): `None` without a usable key,
otherwise the provider outcome (`none` = non-200 or exception). -/
def call_openai_api (env : Env) (userPrompt : String) : Option String :=
  if keyAvailable env.openai_api_key then env.chatApi userPrompt else none

/-- `text.CHANNEL_PROMPTS["email"]`. -/
def textEmailTemplate : String :=
  "Create compelling email marketing copy for the following campaign:\n\nTitle: {title}\nBrief: {brief}\nBrand Profile: {brand_profile_id}\nAudience: {audience_context}\nBrand Assets: {brand_context}\n\nRequirements:\n- Subject line (max 50 characters) - optimized for open rates\n- Email body (max 200 words) - {content_length} format\n- Clear call-to-action with urgency\n- {brand_voice} tone throughout\n- Mobile-optimized format\n- Personalization elements for {age_range} audience\n- NO excessive emojis - keep it professional\n- Include social proof or testimonials if relevant"

/-- `text.CHANNEL_PROMPTS["instagram"]`. -/
def textInstagramTemplate : String :=
  "Create Instagram post copy for the following campaign:\n\nTitle: {title}\nBrief: {brief}\nBrand Profile: {brand_profile_id}\nAudience: {audience_context}\nBrand Assets: {brand_context}\n\nRequirements:\n- Caption (max 2,200 characters) - {content_length} format\n- 8-12 relevant hashtags (mix of popular and niche)\n- Engaging hook in first line\n- Storytelling approach with emotional connection\n- {brand_voice} brand voice consistency\n- Call-to-action (swipe up, visit link, comment)\n- MINIMAL emojis - use sparingly and strategically\n- Include user-generated content prompts\n- Optimize for {age_range} {gender} audience"

/-- `text.CHANNEL_PROMPTS["facebook"]`. -/
def textFacebookTemplate : String :=
  "Create Facebook post copy for the following campaign:\n\nTitle: {title}\nBrief: {brief}\nBrand Profile: {brand_profile_id}\nAudience: {audience_context}\nBrand Assets: {brand_context}\n\nRequirements:\n- Post text (max 500 characters) - {content_length} format\n- Engaging opening that stops scrolling\n- Clear value proposition\n- Community-focused tone\n- Strong call-to-action\n- Encourage sharing and engagement\n- NO excessive emojis - keep it clean and professional\n- Include questions to encourage comments\n- Optimize for {age_range} {gender} audience in {location}\n- Use {brand_values} as core messaging themes"

/-- `text.CHANNEL_PROMPTS["twitter"]`. -/
def textTwitterTemplate : String :=
  "Create Twitter post copy for the following campaign:\n\nTitle: {title}\nBrief: {brief}\nBrand Profile: {brand_profile_id}\nAudience: {audience_context}\nBrand Assets: {brand_context}\n\nRequirements:\n- Tweet text (max 280 characters) - {content_length} format\n- Attention-grabbing opening\n- Clear, concise message\n- Relevant hashtags (max 2-3)\n- {brand_voice} tone\n- Call-to-action if space allows\n- MINIMAL emojis - use 1-2 maximum\n- Optimize for {age_range} audience\n- Include trending topics if relevant\n- Thread potential for longer content"

/-- `text.CHANNEL_PROMPTS` (lines 42-119). -/
def CHANNEL_PROMPTS : List (String × String) :=
  [("email", textEmailTemplate),
   ("instagram", textInstagramTemplate),
   ("facebook", textFacebookTemplate),
   ("twitter", textTwitterTemplate)]

/-- `CHANNEL_PROMPTS.get(channel, CHANNEL_PROMPTS["email"])`
(`text.generate_text` line 143): the fallback for an unrecognized channel
is the email template. -/
def textPromptTemplateFor (channel : String) : String :=
  ((CHANNEL_PROMPTS.find? (fun kv => kv.1 == channel)).map (·.2)).getD textEmailTemplate

/-- The audience-context line of `text.generate_text` (line 137). -/
def audienceContextStr (aud : AudienceTarget) : String :=
  "Age: " ++ aud.age_range ++ ", Gender: " ++ aud.gender ++ ", Location: " ++
    aud.location ++ ", Interests: " ++ String.intercalate ", " aud.interests

/-- The brand-context line of `text.generate_text` (line 140). -/
def brandContextStr (ba : BrandAssets) : String :=
  "Voice: " ++ ba.brand_voice ++ ", Tone: " ++ ba.tone ++ ", Values: " ++
    String.intercalate ", " ba.brand_values ++ ", Colors: " ++ ba.primary_color

/-- `text.calculate_engagement_score` (lines 229-251): base 0.7, plus
0.1 for channel-appropriate length, 0.1 for channel-appropriate hashtag
count, 0.1 for call-to-action vocabulary, capped by `min(1.0, ·)`.
The third parameter is unused by the source as well. -/
def calculate_engagement_score (content channel : String)
    (_audience_target : AudienceTarget) : ℚ :=
  let score : ℚ := 7/10
  let score :=
    if channel == "twitter" && content.length < 200 then score + 1/10
    else if (channel == "facebook" || channel == "instagram") &&
        (100 < content.length && content.length < 400) then score + 1/10
    else score
  let hashtag_count := content.toList.count '#'
  let score :=
    if channel == "instagram" && (5 ≤ hashtag_count && hashtag_count ≤ 12) then score + 1/10
    else if channel == "twitter" && (1 ≤ hashtag_count && hashtag_count ≤ 3) then score + 1/10
    else score
  let cta_words := ["click", "visit", "shop", "buy", "learn", "discover", "try", "get"]
  let score := if cta_words.any (fun w => strContains (pyLower content) w) then score + 1/10
    else score
  min 1 score

/-- `text.generate_optimization_tips` (lines 254-273). -/
def generate_optimization_tips (channel content : String)
    (audience_target : AudienceTarget) : List String :=
  let tips : List String := []
  let tips := if content.length < 50 then
      tips ++ ["Consider adding more details to increase engagement"] else tips
  let tips := if !(["click", "visit", "shop", "buy"].any
        (fun w => strContains (pyLower content) w)) then
      tips ++ ["Add a clear call-to-action to drive conversions"] else tips
  let tips := if channel == "instagram" && content.toList.count '#' < 5 then
      tips ++ ["Add more relevant hashtags to increase discoverability"] else tips
  let tips := if channel == "twitter" && content.length > 250 then
      tips ++ ["Consider shortening for better Twitter engagement"] else tips
  let tips := if audience_target.age_range == "18-24" &&
        !(["trending", "viral", "now"].any (fun w => strContains (pyLower content) w)) then
      tips ++ ["Consider adding trending language for younger audience"] else tips
  tips.take 3

/-- `text.generate_content_variations` (lines 204-226): at most the first
two variation prompts are sent; failed calls contribute nothing. -/
def generate_content_variations (env : Env) (channel _title brief
    _audience_context _brand_context _content_length brand_voice : String) : List String :=
  let variation_prompts :=
    ["Create a " ++ brand_voice ++ " variation of this " ++ channel ++
       " content with a more emotional appeal: " ++ brief,
     "Create a " ++ brand_voice ++ " variation of this " ++ channel ++
       " content with a more data-driven approach: " ++ brief,
     "Create a " ++ brand_voice ++ " variation of this " ++ channel ++
       " content with a more urgent tone: " ++ brief]
  (variation_prompts.take 2).foldl
    (fun acc p => match call_openai_api env p with
      | some c => acc ++ [c.trim]
      | none => acc) []

/-- The dict returned by `text.generate_text`. -/
structure TextResult where
  primary : String
  variations : List String
  engagement_score : ℚ
  optimization_tips : List String
  deriving Repr, DecidableEq

/-- The per-channel input dict `\x7b"channel": ch, **enhanced_payload\x7d`
built by `main.generate` line 55.  `audience_target` / `brand_assets` keep
the request values, which default to Python `None` (`none` here). -/
structure ChannelData where
  channel : String
  title : String
  brief : String
  brand_profile_id : String
  audience_target : Option AudienceTarget
  brand_assets : Option BrandAssets
  content_length : String
  generate_variations : Bool
  include_emoji : Bool
  brand_context : String

/-- `text.generate_text` (lines 122-201).  Lines 137/140 call `.get` on
`audience_target` / `brand_assets`; when the request left these fields as
`None`, that raises `AttributeError` *outside* the function's `try`, so
the error escapes to the orchestrator.  Otherwise the function is total:
a missing/failed chat capability yields the deterministic mock copy. -/
def generate_text (env : Env) (input : ChannelData) : Except String TextResult :=
  match input.audience_target with
  | none => .error "AttributeError: NoneType object has no attribute get"
  | some aud =>
  match input.brand_assets with
  | none => .error "AttributeError: NoneType object has no attribute get"
  | some ba =>
  let audience_context := audienceContextStr aud
  let brand_context := brandContextStr ba
  let prompt := pyFormat (textPromptTemplateFor input.channel)
    [("title", input.title), ("brief", input.brief),
     ("brand_profile_id", input.brand_profile_id),
     ("audience_context", audience_context), ("brand_context", brand_context),
     ("content_length", input.content_length), ("age_range", aud.age_range),
     ("gender", aud.gender), ("location", aud.location),
     ("brand_voice", ba.brand_voice),
     ("brand_values", String.intercalate ", " ba.brand_values)]
  match call_openai_api env prompt with
  | some content =>
    let primary_content := content.trim
    let variations :=
      if input.generate_variations then
        generate_content_variations env input.channel input.title input.brief
          audience_context brand_context input.content_length ba.brand_voice
      else []
    .ok { primary := primary_content
          variations := variations
          engagement_score := calculate_engagement_score primary_content input.channel aud
          optimization_tips := generate_optimization_tips input.channel primary_content aud }
  | none =>
    .ok { primary := "Generated copy for " ++ input.channel ++ ": " ++ input.title ++
            " — " ++ input.brief ++ "\n\n[Note: OpenAI API call failed. This is a mock response.]"
          variations := []
          engagement_score := 7/10
          optimization_tips := ["Consider A/B testing different headlines",
                                "Add more specific call-to-actions"] }

/-! ## Channel image generator (`app/pipelines/image.py`) -/

/-- One entry of `image.CHANNEL_IMAGE_CONFIG`. -/
structure ImageConfig where
  prompt_template : String
  width : Nat
  height : Nat
  style : String
  deriving Repr, DecidableEq

def imageEmailConfig : ImageConfig where
  prompt_template := "Professional marketing image for email campaign: {title} - {brief}. Clean, modern design with clear typography."
  width := 600
  height := 400
  style := "professional, clean, modern"

def imageInstagramConfig : ImageConfig where
  prompt_template := "Instagram post image for: {title} - {brief}. Eye-catching, social media optimized, square format."
  width := 1080
  height := 1080
  style := "vibrant, social media, engaging"

def imageFacebookConfig : ImageConfig where
  prompt_template := "Facebook post image for: {title} - {brief}. Social media friendly, engaging visual."
  width := 1200
  height := 630
  style := "social media, engaging, professional"

def imageTwitterConfig : ImageConfig where
  prompt_template := "Twitter post image for: {title} - {brief}. Clean, impactful design for social media."
  width := 1200
  height := 675
  style := "clean, impactful, social media"

/-- `image.CHANNEL_IMAGE_CONFIG` (lines 56-81). -/
def CHANNEL_IMAGE_CONFIG : List (String × ImageConfig) :=
  [("email", imageEmailConfig),
   ("instagram", imageInstagramConfig),
   ("facebook", imageFacebookConfig),
   ("twitter", imageTwitterConfig)]

/-- `CHANNEL_IMAGE_CONFIG.get(channel, CHANNEL_IMAGE_CONFIG["email"])`
(`image.generate_image` line 91): the fallback for an unrecognized
channel is the email configuration. -/
def imageConfigFor (channel : String) : ImageConfig :=
  ((CHANNEL_IMAGE_CONFIG.find? (fun kv => kv.1 == channel)).map (·.2)).getD imageEmailConfig

/-- `image.get_placeholder_image` (lines 153-158).  The `error` parameter
is accepted and ignored, as in the source. -/
def get_placeholder_image (channel title : String) (_error : Option String := none) : String :=
  let label := quote_plus (pyTitle channel ++ ": " ++ title)
  "https://via.placeholder.com/600x400/3b82f6/ffffff?text=" ++ label

/-- `image.store_image_in_s3` (lines 127-150): on success an S3 URL, on
any exception the original URL. -/
def store_image_in_s3 (env : Env) (image_url filename : String) : String :=
  if env.s3Upload image_url filename then
    "https://" ++ env.s3Bucket ++ ".s3." ++ env.s3Region ++
      ".amazonaws.com/generated-images/" ++ filename ++ ".png"
  else image_url

/-- `image.generate_image` (lines 84-125): DALL-E behind a key guard,
optional S3 persistence, and the deterministic placeholder on every
failure path.  Total: the source wraps the provider branch in
`try/except` ending in the placeholder. -/
def generate_image (env : Env) (input : ChannelData) : String :=
  let config := imageConfigFor input.channel
  let prompt := pyFormat config.prompt_template
    [("title", input.title), ("brief", input.brief)]
  if keyAvailable env.openai_api_key then
    match env.dalleApi prompt with
    | some image_url =>
      if env.s3Configured then
        store_image_in_s3 env image_url
          (input.channel ++ "_" ++ (input.title.replace " " "_"))
      else image_url
    | none => get_placeholder_image input.channel input.title
  else get_placeholder_image input.channel input.title

/-! ## Brand context retriever (`app/pipelines/rag.py`) -/

/-- One profile of `rag.BRAND_KNOWLEDGE`. -/
structure BrandProfile where
  brand_voice : String
  target_audience : String
  key_messages : List String
  tone : String
  brand_values : List String
  deriving Repr, DecidableEq

def demoProfile : BrandProfile where
  brand_voice := "Professional, friendly, and approachable"
  target_audience := "Tech-savvy professionals aged 25-45"
  key_messages := ["Innovation", "Quality", "Customer-first approach"]
  tone := "Conversational yet professional"
  brand_values := ["Trust", "Innovation", "Excellence"]

def techStartupProfile : BrandProfile where
  brand_voice := "Innovative, energetic, and forward-thinking"
  target_audience := "Early adopters and tech enthusiasts"
  key_messages := ["Cutting-edge technology", "Disruption", "Future-focused"]
  tone := "Bold and confident"
  brand_values := ["Innovation", "Speed", "Disruption"]

def fashionBrandProfile : BrandProfile where
  brand_voice := "Trendy, stylish, and aspirational"
  target_audience := "Fashion-conscious individuals aged 18-35"
  key_messages := ["Style", "Self-expression", "Trend-setting"]
  tone := "Inspirational and trendy"
  brand_values := ["Creativity", "Individuality", "Style"]

/-- `rag.BRAND_KNOWLEDGE` (lines 52-74). -/
def BRAND_KNOWLEDGE : List (String × BrandProfile) :=
  [("demo", demoProfile),
   ("tech_startup", techStartupProfile),
   ("fashion_brand", fashionBrandProfile)]

/-- The shared header of both context strings of `rag.rag_retrieve`. -/
def brandContextHeader (bc : BrandProfile) : String :=
  "\nBrand Context:\n- Voice: " ++ bc.brand_voice ++
    "\n- Target Audience: " ++ bc.target_audience ++
    "\n- Key Messages: " ++ String.intercalate ", " bc.key_messages ++
    "\n- Tone: " ++ bc.tone ++
    "\n- Values: " ++ String.intercalate ", " bc.brand_values

/-- `rag.rag_retrieve` (lines 77-132): static profile lookup with the
`demo` fallback; when Pinecone and a key are both available and the
vector query succeeds, the knowledge-augmented string, otherwise the
static one.  Never fails. -/
def rag_retrieve (env : Env) (brand_profile_id title brief : String) : String :=
  let bc := ((BRAND_KNOWLEDGE.find? (fun kv => kv.1 == brand_profile_id)).map (·.2)).getD
    demoProfile
  let staticContext := brandContextHeader bc ++
    "\n\nCampaign Context:\n- Title: " ++ title ++ "\n- Brief: " ++ brief ++ "\n"
  if env.pineconeAvailable && keyAvailable env.openai_api_key then
    match env.pineconeContext with
    | some vector_context =>
      brandContextHeader bc ++ "\n\nRelevant Knowledge:\n" ++ vector_context ++ "\n"
    | none => staticContext
  else staticContext

/-! ## Job orchestrator (`app/main.py`) -/

/-- `main.get_optimal_posting_time` (lines 129-137); the audience
argument is unused by the source as well. -/
def get_optimal_posting_time (channel : String)
    (_audience_target : Option AudienceTarget) : String :=
  let optimal_times := [("facebook", "1:00 PM - 3:00 PM"),
                        ("instagram", "11:00 AM - 1:00 PM"),
                        ("twitter", "12:00 PM - 3:00 PM"),
                        ("email", "10:00 AM - 11:00 AM")]
  ((optimal_times.find? (fun kv => kv.1 == channel)).map (·.2)).getD "12:00 PM - 2:00 PM"

/-- Python `f"…:.1f"` on a non-negative exact-tenth value, with the `K`
suffix of `calculate_estimated_reach`. -/
def fmt1K (x : ℚ) : String :=
  let n := Int.floor (x * 10 + 1/2)
  toString (n / 10) ++ "." ++ toString (n % 10) ++ "K"

/-- `main.calculate_estimated_reach` (lines 140-152).  `str(int(x))`
truncates; every reachable value is non-negative, where truncation equals
the floor. -/
def calculate_estimated_reach (channel : String) (engagement_score : ℚ) : String :=
  let base_reach := [("facebook", 1000), ("instagram", 800),
                     ("twitter", 500), ("email", 2000)]
  let base : Nat := ((base_reach.find? (fun kv => kv.1 == channel)).map (·.2)).getD 500
  let estimated := (base : ℚ) * engagement_score
  if estimated > 1000 then fmt1K (estimated / 1000)
  else toString (Int.floor estimated)

/-- One entry of the `multimodal_copies` list assembled by
`main.generate` (lines 62-68). -/
structure Copy where
  channel : String
  primary : String
  variations : List String
  engagement_score : ℚ
  optimization_tips : List String
  deriving Repr, DecidableEq

/-- One entry of `performance_predictions` (`main.generate` lines 73-78). -/
structure PerformancePrediction where
  channel : String
  predicted_engagement : ℚ
  best_posting_time : String
  estimated_reach : String
  deriving Repr, DecidableEq

/-- The dict returned by `main.generate_campaign_insights`. -/
structure CampaignInsights where
  overall_engagement_score : ℚ
  best_performing_channel : String
  total_variations_generated : Nat
  recommendations : List String
  deriving Repr, DecidableEq

/-- Python `max(xs, key=...)`: the first element whose key no later
element strictly exceeds. -/
def maxByEngagement (p : PerformancePrediction) (rest : List PerformancePrediction) :
    PerformancePrediction :=
  rest.foldl (fun acc q =>
    if q.predicted_engagement > acc.predicted_engagement then q else acc) p

/-- `main.generate_campaign_insights` (lines 155-178). -/
def generate_campaign_insights (multimodal_copies : List Copy)
    (performance_predictions : List PerformancePrediction) : CampaignInsights :=
  let total_engagement := (performance_predictions.map (·.predicted_engagement)).sum
  let avg_engagement :=
    match performance_predictions with
    | [] => 0
    | _ => total_engagement / (performance_predictions.length : ℚ)
  let best_channel : Option PerformancePrediction :=
    match performance_predictions with
    | [] => none
    | p :: rest => some (maxByEngagement p rest)
  let recommendations : List String := []
  let recommendations :=
    if avg_engagement > 8/10 then
      recommendations ++ ["Excellent engagement potential - consider boosting budget"]
    else if avg_engagement < 6/10 then
      recommendations ++ ["Consider refining content strategy for better engagement"]
    else recommendations
  let recommendations :=
    match best_channel with
    | some b =>
      if b.predicted_engagement > avg_engagement + 1/10 then
        recommendations ++ ["Focus budget on " ++ b.channel ++ " for best ROI"]
      else recommendations
    | none => recommendations
  { overall_engagement_score := round2 avg_engagement
    best_performing_channel := ((best_channel.map (·.channel)).getD "None")
    total_variations_generated := (multimodal_copies.map (·.variations.length)).sum
    recommendations := recommendations }

/-- The `generation_settings` sub-dict of the result (`main.generate`
lines 96-100). -/
structure GenerationSettings where
  content_length : String
  generate_variations : Bool
  include_emoji : Bool
  deriving Repr, DecidableEq

/-- The completed-job `result` dict (`main.generate` lines 87-102). -/
structure GenResult where
  multimodal_copies : List Copy
  images : List String
  performance_predictions : List PerformancePrediction
  campaign_insights : CampaignInsights
  score : ScoreReport
  brand_context : String
  prompt_used : String
  generation_settings : GenerationSettings

/-- The per-channel dict `\x7b"channel": ch, **enhanced_payload\x7d`
(`main.generate` line 55). -/
def mkChannelData (payload : GenerateRequest) (brand_context : String)
    (ch : String) : ChannelData where
  channel := ch
  title := payload.title
  brief := payload.brief
  brand_profile_id := payload.brand_profile_id
  audience_target := payload.audience_target
  brand_assets := payload.brand_assets
  content_length := payload.content_length
  generate_variations := payload.generate_variations
  include_emoji := payload.include_emoji
  brand_context := brand_context

/-- One iteration of the per-channel loop (`main.generate` lines 53-78):
text generation (which may raise), image generation, and the performance
prediction. -/
def processChannel (env : Env) (payload : GenerateRequest) (brand_context : String)
    (ch : String) : Except String (Copy × String × PerformancePrediction) :=
  match generate_text env (mkChannelData payload brand_context ch) with
  | .error e => .error e
  | .ok text_result =>
    .ok ({ channel := ch
           primary := text_result.primary
           variations := text_result.variations
           engagement_score := text_result.engagement_score
           optimization_tips := text_result.optimization_tips },
         generate_image env (mkChannelData payload brand_context ch),
         { channel := ch
           predicted_engagement := text_result.engagement_score
           best_posting_time := get_optimal_posting_time ch payload.audience_target
           estimated_reach := calculate_estimated_reach ch text_result.engagement_score })

/-- The appending `for` loop of `main.generate` as a monadic map: the
first raised exception aborts the loop and the pending lists, exactly as
the single `try` around the pipeline does. -/
def mapExcept (f : α → Except String β) : List α → Except String (List β)
  | [] => .ok []
  | a :: as =>
    match f a with
    | .error e => .error e
    | .ok b =>
      match mapExcept f as with
      | .error e => .error e
      | .ok bs => .ok (b :: bs)

/-- The successful-result assembly of `main.generate` (lines 87-102),
given the per-channel triples. -/
def assembleResult (env : Env) (payload : GenerateRequest)
    (triples : List (Copy × String × PerformancePrediction)) : GenResult :=
  let brand_context := rag_retrieve env payload.brand_profile_id payload.title payload.brief
  let multimodal_copies := triples.map (·.1)
  let images := triples.map (·.2.1)
  let performance_predictions := triples.map (·.2.2)
  { multimodal_copies := multimodal_copies
    images := images
    performance_predictions := performance_predictions
    campaign_insights := generate_campaign_insights multimodal_copies performance_predictions
    score := score_content env.scoringClient
      { copies := multimodal_copies.map (·.primary), images := images }
    brand_context := brand_context
    prompt_used := promptify env.render
      { title := some payload.title
        brief := some payload.brief
        channel := none
        brand_profile_id := some payload.brand_profile_id
        brand_context := some brand_context }
    generation_settings :=
      { content_length := payload.content_length
        generate_variations := payload.generate_variations
        include_emoji := payload.include_emoji } }

/-- Steps 1-5 of `main.generate`'s `try` block (lines 40-102): RAG
retrieval, base prompt, per-channel loop, scoring, result assembly. -/
def runPipeline (env : Env) (payload : GenerateRequest) : Except String GenResult :=
  match mapExcept (processChannel env payload
      (rag_retrieve env payload.brand_profile_id payload.title payload.brief))
      payload.channels with
  | .error e => .error e
  | .ok triples => .ok (assembleResult env payload triples)

/-- A terminal job's `result` value: the assembled output or the error
payload `\x7b"error": str(e)\x7d`. -/
inductive JobResult where
  | ok (r : GenResult)
  | err (e : String)

/-- One record of the `config.JOBS` store. -/
structure Job where
  status : String
  progress : Nat
  result : Option JobResult
  input : GenerateRequest

/-- The job as first written at submission (`main.generate` lines 32-37). -/
def initJob (payload : GenerateRequest) : Job where
  status := "processing"
  progress := 0
  result := none
  input := payload

/-- The job after the single terminal update (`main.generate` lines
104-115). -/
def finalJob (env : Env) (payload : GenerateRequest) : Job :=
  match runPipeline env payload with
  | .ok r => { status := "completed", progress := 100, result := some (.ok r), input := payload }
  | .error e => { status := "failed", progress := 100, result := some (.err e), input := payload }

/-- The successive states a job record takes: written once at creation,
mutated once to its terminal state. -/
def jobTrace (env : Env) (payload : GenerateRequest) : List Job :=
  [initJob payload, finalJob env payload]

/-- `config.JOBS`, an in-memory map. -/
def JobStore := List (String × Job)

/-- `JOBS.get(job_id)` (the lookup of `main.get_job`). -/
def getJob (store : JobStore) (id : String) : Option Job :=
  ((store.find? (fun kv => kv.1 == id)).map (·.2))

/-- `main.get_job` as a stateful read: the returned snapshot plus the
(unchanged) store. -/
def get_job (store : JobStore) (id : String) : Option Job × JobStore :=
  (getJob store id, store)

/-- `JOBS[job_id].update(...)`. -/
def setJob (store : JobStore) (id : String) (j : Job) : JobStore :=
  store.map (fun kv => if kv.1 == id then (kv.1, j) else kv)

/-- The two store writes of `main.generate`: creation, then the terminal
update. -/
def submitStores (env : Env) (store : JobStore) (id : String)
    (payload : GenerateRequest) : JobStore × JobStore :=
  let s1 := (id, initJob payload) :: store
  (s1, setJob s1 id (finalJob env payload))

/-- The HTTP response model `schemas.JobStatusResponse`. -/
structure JobStatusResponse where
  job_id : String
  status : String
  progress : Nat
  result : Option JobResult

/-- `main.generate` (lines 27-118): create the job, run the pipeline,
write the terminal state, and answer with the terminal snapshot. -/
def generate (env : Env) (store : JobStore) (id : String)
    (payload : GenerateRequest) : JobStatusResponse × JobStore :=
  let s2 := (submitStores env store id payload).2
  let fin := finalJob env payload
  ({ job_id := id, status := fin.status, progress := fin.progress, result := fin.result }, s2)

/-! ## Helper lemmas -/

lemma round2_nonneg {x : ℚ} (h0 : 0 ≤ x) : 0 ≤ round2 x := by
  unfold round2
  apply div_nonneg _ (by norm_num)
  have : (0 : ℤ) ≤ ⌊x * 100 + 1/2⌋ := Int.floor_nonneg.mpr (by linarith)
  exact_mod_cast this

lemma round2_le_one {x : ℚ} (h1 : x ≤ 1) : round2 x ≤ 1 := by
  unfold round2
  rw [div_le_one (by norm_num)]
  have h2 : ⌊x * 100 + 1/2⌋ ≤ ⌊(201 : ℚ)/2⌋ := Int.floor_mono (by linarith)
  have h3 : (⌊(201 : ℚ)/2⌋ : ℤ) = 100 := by norm_num
  have : ⌊x * 100 + 1/2⌋ ≤ (100 : ℤ) := by omega
  exact_mod_cast this

/-- Every copy score produced in evaluated mode is the 0.7 default. -/
lemma copy_scores_replicate (llm : LLMChat) (copies : List String) :
    copies.enum.map (fun ic => evaluate_copy_quality llm ic.2 ic.1) =
      List.replicate copies.length ((7 : ℚ)/10) := by
  rw [show List.replicate copies.length ((7 : ℚ)/10) =
        List.replicate (copies.enum.map
          (fun ic => evaluate_copy_quality llm ic.2 ic.1)).length ((7 : ℚ)/10) by
       simp]
  exact List.eq_replicate_length.mpr (by
    intro b hb
    obtain ⟨ic, _, rfl⟩ := List.mem_map.mp hb
    rfl)

/-- Image scores in evaluated mode lie in `[0, 0.8]`. -/
lemma evaluate_image_quality_bounds (u : String) (i : Nat) :
    0 ≤ evaluate_image_quality u i ∧ evaluate_image_quality u i ≤ 8/10 := by
  unfold evaluate_image_quality
  split <;> norm_num

/-- The `sum / max(len, 1)` average of a list of values in `[0, c]` stays
in `[0, c]`. -/
lemma avg_bounds (l : List ℚ) (c : ℚ) (hc : 0 ≤ c)
    (h : ∀ x ∈ l, 0 ≤ x ∧ x ≤ c) :
    0 ≤ l.sum / (max (l.length : ℚ) 1) ∧ l.sum / (max (l.length : ℚ) 1) ≤ c := by
  have hpos : (0 : ℚ) < max (l.length : ℚ) 1 := lt_of_lt_of_le one_pos (le_max_right _ _)
  constructor
  · exact div_nonneg (List.sum_nonneg (fun x hx => (h x hx).1)) (le_of_lt hpos)
  · rw [div_le_iff₀ hpos]
    calc l.sum ≤ l.length • c := List.sum_le_card_nsmul l c (fun x hx => (h x hx).2)
    _ = (l.length : ℚ) * c := by rw [nsmul_eq_mul]
    _ ≤ max (l.length : ℚ) 1 * c := by
        apply mul_le_mul_of_nonneg_right (le_max_left _ _) hc
    _ = c * max (l.length : ℚ) 1 := mul_comm _ _

/-! ## Claim theorems -/

/-- C3: with no scoring capability the report is the heuristic one —
`overall_score = round2 (min 1 (0.5 + 0.05·#copies + 0.02·#images))`,
fixed sub-scores `copy 0.7 / image 0.6 / brand 0.8 / engagement 0.7` —
and for 3 copies and 2 images the overall score is 0.69. -/
theorem C3_heuristic_score :
    (∀ copies images : List String,
      (score_content none ⟨copies, images⟩).overall_score =
        round2 (min 1 ((1:ℚ)/2 + (5/100) * (copies.length : ℚ) +
          (2/100) * (images.length : ℚ))) ∧
      (score_content none ⟨copies, images⟩).copy_score = 7/10 ∧
      (score_content none ⟨copies, images⟩).image_score = 6/10 ∧
      (score_content none ⟨copies, images⟩).brand_consistency = 8/10 ∧
      (score_content none ⟨copies, images⟩).engagement_potential = 7/10) ∧
    (∀ c1 c2 c3 i1 i2 : String,
      (score_content none ⟨[c1, c2, c3], [i1, i2]⟩).overall_score = 69/100) := by
  constructor
  · intro copies images
    refine ⟨rfl, rfl, rfl, rfl, rfl⟩
  · intro c1 c2 c3 i1 i2
    simp [score_content, heuristicReport, round2]
    norm_num

/-- C5: in both scoring modes and for every batch, the overall score lies
in `[0, 1]`. -/
theorem C5_overall_score_in_unit_interval :
    ∀ (client : Option LLMChat) (content : Content),
      0 ≤ (score_content client content).overall_score ∧
      (score_content client content).overall_score ≤ 1 := by
  intro client content
  cases client with
  | none =>
    show 0 ≤ round2 _ ∧ round2 _ ≤ 1
    have h0 : (0:ℚ) ≤ (1:ℚ)/2 + (5/100) * (content.copies.length : ℚ) +
        (2/100) * (content.images.length : ℚ) := by positivity
    constructor
    · exact round2_nonneg (le_min (by norm_num) h0)
    · exact round2_le_one (min_le_left _ _)
  | some llm =>
    have hc : ∀ x ∈ content.copies.enum.map
        (fun ic => evaluate_copy_quality llm ic.2 ic.1), 0 ≤ x ∧ x ≤ 7/10 := by
      intro x hx
      obtain ⟨ic, _, rfl⟩ := List.mem_map.mp hx
      exact ⟨by norm_num [evaluate_copy_quality, undefinedOpenaiClient],
             by norm_num [evaluate_copy_quality, undefinedOpenaiClient]⟩
    have hi : ∀ x ∈ content.images.enum.map
        (fun iu => evaluate_image_quality iu.2 iu.1), 0 ≤ x ∧ x ≤ 8/10 := by
      intro x hx
      obtain ⟨iu, _, rfl⟩ := List.mem_map.mp hx
      exact evaluate_image_quality_bounds iu.2 iu.1
    have hca := avg_bounds _ _ (by norm_num) hc
    have hia := avg_bounds _ _ (by norm_num) hi
    show 0 ≤ round2 _ ∧ round2 _ ≤ 1
    simp only [List.length_map, List.enum_length] at hca hia
    simp only [List.length_map, List.enum_length,
      evaluate_brand_consistency, evaluate_engagement_potential, undefinedOpenaiClient]
    constructor
    · apply round2_nonneg
      have := hca.1; have := hia.1
      nlinarith [hca.1, hia.1]
    · apply round2_le_one
      nlinarith [hca.2, hia.2, hca.1, hia.1]

/-- C2 (code evaluated at the failing input): the repository's own
placeholder URL — produced by `get_placeholder_image` for channel
`email`, title `Summer Sale` — is scored 0.8 by
`evaluate_image_quality`, not the 0.5 reserved for placeholders, because
the check looks for `placehold.co` while the generator emits
`via.placeholder.com` URLs. -/
theorem C2_placeholder_scored_as_real :
    get_placeholder_image "email" "Summer Sale" =
      "https://via.placeholder.com/600x400/3b82f6/ffffff?text=Email%3A+Summer+Sale" ∧
    evaluate_image_quality (get_placeholder_image "email" "Summer Sale") 0 = 8/10 ∧
    (8 : ℚ)/10 ≠ 5/10 := by
  refine ⟨by decide, ?_, by norm_num⟩
  have hcond : (!(get_placeholder_image "email" "Summer Sale" == "") &&
      !(strContains (get_placeholder_image "email" "Summer Sale") "placehold.co")) = true := by
    decide
  simp [evaluate_image_quality, hcond]

/-- The end-to-end scenario request of the spec: `Summer Sale`, `50% off`,
brand `demo`, channels `email` and `instagram`, everything else left to
its defaults (in particular `audience_target = None`,
`brand_assets = None`). -/
def reqC1 : GenerateRequest where
  title := "Summer Sale"
  brief := "50% off"
  brand_profile_id := "demo"
  channels := ["email", "instagram"]

/-- C1 (counterexample): on the spec's end-to-end request with no
provider credentials, the terminal job is *not* `completed` (so in
particular it does not carry two copies, two images and a 0.59 score):
`generate_text` dereferences the request's absent (`None`)
`audience_target`, and the resulting `AttributeError` fails the job. -/
theorem C1_counterexample :
    ¬ ((finalJob noCredEnv reqC1).status = "completed" ∧
       ∃ r, (finalJob noCredEnv reqC1).result = some (.ok r) ∧
         r.multimodal_copies.length = 2 ∧ r.images.length = 2 ∧
         r.score.overall_score = 59/100) := by
  intro h
  exact absurd h.1 (by decide)

/-- C1 (amended): the terminal job for the scenario request is `failed`
with progress 100 and an error payload; and the heuristic score report
the scenario aimed at — two copies, two images, no scoring capability —
has `overall_score = 0.64` (the spec's own formula
`0.5 + 0.05·2 + 0.02·2` rounded), not 0.59. -/
theorem C1_amended :
    (finalJob noCredEnv reqC1).status = "failed" ∧
    (finalJob noCredEnv reqC1).progress = 100 ∧
    (finalJob noCredEnv reqC1).result =
      some (.err "AttributeError: NoneType object has no attribute get") ∧
    ∀ c1 c2 i1 i2 : String,
      (score_content none ⟨[c1, c2], [i1, i2]⟩).overall_score = 64/100 := by
  refine ⟨by decide, by decide, rfl, ?_⟩
  intro c1 c2 i1 i2
  simp [score_content, heuristicReport, round2]
  norm_num

/-- C6: a job is created as `processing`/`0` holding the verbatim
request, is mutated exactly once, to a terminal state (`completed`/100 or
`failed`/100, never `processing` again), and `get_job` is a pure read:
after the terminal write it returns the terminal snapshot, leaves the
store untouched, and repeated lookups agree. -/
theorem C6_job_lifecycle :
    ∀ (env : Env) (store : JobStore) (id : String) (payload : GenerateRequest),
      (initJob payload).status = "processing" ∧
      (initJob payload).progress = 0 ∧
      (initJob payload).input = payload ∧
      getJob (submitStores env store id payload).1 id = some (initJob payload) ∧
      jobTrace env payload = [initJob payload, finalJob env payload] ∧
      ((finalJob env payload).status = "completed" ∨
        (finalJob env payload).status = "failed") ∧
      (finalJob env payload).progress = 100 ∧
      (finalJob env payload).status ≠ "processing" ∧
      (finalJob env payload).input = payload ∧
      getJob (submitStores env store id payload).2 id = some (finalJob env payload) ∧
      (get_job (submitStores env store id payload).2 id).2 =
        (submitStores env store id payload).2 ∧
      (get_job ((get_job (submitStores env store id payload).2 id).2) id).1 =
        (get_job (submitStores env store id payload).2 id).1 := by
  intro env store id payload
  have hstatus : (finalJob env payload).status = "completed" ∨
      (finalJob env payload).status = "failed" := by
    unfold finalJob
    cases runPipeline env payload <;> simp
  refine ⟨rfl, rfl, rfl, ?_, rfl, hstatus, ?_, ?_, ?_, ?_, rfl, rfl⟩
  · simp [submitStores, getJob, List.find?]
  · unfold finalJob
    cases runPipeline env payload <;> rfl
  · rcases hstatus with h | h <;> rw [h] <;> decide
  · unfold finalJob
    cases runPipeline env payload <;> rfl
  · simp [submitStores, getJob, setJob, List.find?]

/-! ### Per-channel loop lemmas -/

lemma mapExcept_ok_map {α β γ : Type _} {f : α → Except String β} {g : β → γ} {h : α → γ}
    (H : ∀ a b, f a = .ok b → g b = h a) :
    ∀ {l : List α} {res : List β}, mapExcept f l = .ok res → res.map g = l.map h := by
  intro l
  induction l with
  | nil =>
    intro res hres
    simp only [mapExcept] at hres
    cases hres
    rfl
  | cons a as ih =>
    intro res hres
    simp only [mapExcept] at hres
    cases hfa : f a with
    | error e => rw [hfa] at hres; cases hres
    | ok b =>
      rw [hfa] at hres
      cases hm : mapExcept f as with
      | error e => rw [hm] at hres; cases hres
      | ok bs =>
        rw [hm] at hres
        cases hres
        simp only [List.map_cons, ih hm, H a b hfa]

lemma mapExcept_ok_length {α β : Type _} {f : α → Except String β}
    {l : List α} {res : List β} (hres : mapExcept f l = .ok res) :
    res.length = l.length := by
  have := congrArg List.length
    (mapExcept_ok_map (g := fun _ => ()) (h := fun _ => ()) (fun _ _ _ => rfl) hres)
  simpa using this

lemma mapExcept_ok_of_all {α β : Type _} {f : α → Except String β}
    (H : ∀ a, ∃ b, f a = .ok b) :
    ∀ l : List α, ∃ res, mapExcept f l = .ok res := by
  intro l
  induction l with
  | nil => exact ⟨[], rfl⟩
  | cons a as ih =>
    obtain ⟨b, hb⟩ := H a
    obtain ⟨bs, hbs⟩ := ih
    refine ⟨b :: bs, ?_⟩
    simp only [mapExcept]
    rw [hb, hbs]

/-- A successful per-channel iteration tags its copy with the channel and
carries that channel's generated image. -/
lemma processChannel_ok_parts {env : Env} {payload : GenerateRequest}
    {bc ch : String} {t : Copy × String × PerformancePrediction}
    (h : processChannel env payload bc ch = .ok t) :
    t.1.channel = ch ∧ t.2.1 = generate_image env (mkChannelData payload bc ch) := by
  unfold processChannel at h
  cases hgt : generate_text env (mkChannelData payload bc ch) with
  | error e =>
    rw [hgt] at h
    cases h
  | ok tr =>
    rw [hgt] at h
    cases h
    exact ⟨rfl, rfl⟩

/-- With both optional request sections present, `generate_text` cannot
raise. -/
lemma generate_text_ok_of_some (env : Env) (cd : ChannelData)
    {aud : AudienceTarget} {ba : BrandAssets}
    (ha : cd.audience_target = some aud) (hb : cd.brand_assets = some ba) :
    ∃ tr, generate_text env cd = .ok tr := by
  unfold generate_text
  rw [ha, hb]
  dsimp only
  cases call_openai_api env _ <;> exact ⟨_, rfl⟩

lemma processChannel_ok_of_some (env : Env) (payload : GenerateRequest)
    (bc ch : String) {aud : AudienceTarget} {ba : BrandAssets}
    (ha : payload.audience_target = some aud) (hb : payload.brand_assets = some ba) :
    ∃ t, processChannel env payload bc ch = .ok t := by
  obtain ⟨tr, htr⟩ :=
    generate_text_ok_of_some env (mkChannelData payload bc ch) ha hb
  refine ⟨({ channel := ch
             primary := tr.primary
             variations := tr.variations
             engagement_score := tr.engagement_score
             optimization_tips := tr.optimization_tips },
           generate_image env (mkChannelData payload bc ch),
           { channel := ch
             predicted_engagement := tr.engagement_score
             best_posting_time := get_optimal_posting_time ch payload.audience_target
             estimated_reach := calculate_estimated_reach ch tr.engagement_score }), ?_⟩
  unfold processChannel
  rw [htr]

/-- With both optional request sections present, the whole pipeline
succeeds, whatever the providers answer. -/
lemma runPipeline_ok_of_some (env : Env) {payload : GenerateRequest}
    {aud : AudienceTarget} {ba : BrandAssets}
    (ha : payload.audience_target = some aud) (hb : payload.brand_assets = some ba) :
    ∃ r, runPipeline env payload = .ok r := by
  obtain ⟨res, hres⟩ := mapExcept_ok_of_all
    (f := processChannel env payload
      (rag_retrieve env payload.brand_profile_id payload.title payload.brief))
    (fun ch => processChannel_ok_of_some env payload
      (rag_retrieve env payload.brand_profile_id payload.title payload.brief) ch ha hb)
    payload.channels
  refine ⟨assembleResult env payload res, ?_⟩
  unfold runPipeline
  rw [hres]

/-- C4: whenever a job completes, its result carries one copy entry and
one image per requested channel, in request order: the i-th copy is
tagged with the i-th channel and the i-th image is the one generated for
that channel. -/
theorem C4_channel_collections :
    ∀ (env : Env) (payload : GenerateRequest),
      (finalJob env payload).status = "completed" →
      ∃ r, (finalJob env payload).result = some (.ok r) ∧
        r.multimodal_copies.length = payload.channels.length ∧
        r.images.length = payload.channels.length ∧
        r.multimodal_copies.map Copy.channel = payload.channels ∧
        r.images = payload.channels.map (fun ch =>
          generate_image env (mkChannelData payload
            (rag_retrieve env payload.brand_profile_id payload.title payload.brief) ch)) := by
  intro env payload hst
  cases hrp : runPipeline env payload with
  | error e =>
    unfold finalJob at hst
    rw [hrp] at hst
    simp at hst
  | ok r =>
    unfold runPipeline at hrp
    cases hm : mapExcept (processChannel env payload
        (rag_retrieve env payload.brand_profile_id payload.title payload.brief))
        payload.channels with
    | error e => rw [hm] at hrp; cases hrp
    | ok triples =>
      rw [hm] at hrp
      injection hrp with hr
      subst hr
      have hrp2 : runPipeline env payload = .ok (assembleResult env payload triples) := by
        unfold runPipeline
        rw [hm]
      have hchan : (triples.map (·.1)).map Copy.channel = payload.channels := by
        rw [List.map_map]
        have := mapExcept_ok_map
          (g := fun t => Copy.channel t.1) (h := fun ch => ch)
          (fun a b hab => (processChannel_ok_parts hab).1) hm
        simpa using this
      have himg : triples.map (·.2.1) = payload.channels.map (fun ch =>
          generate_image env (mkChannelData payload
            (rag_retrieve env payload.brand_profile_id payload.title payload.brief) ch)) :=
        mapExcept_ok_map (fun a b hab => (processChannel_ok_parts hab).2) hm
      refine ⟨assembleResult env payload triples, ?_, ?_, ?_, ?_, ?_⟩
      · unfold finalJob
        rw [hrp2]
      · simp only [assembleResult]
        simpa using congrArg List.length hchan
      · simp only [assembleResult]
        simpa using congrArg List.length himg
      · simp only [assembleResult]
        exact hchan
      · simp only [assembleResult]
        exact himg

/-- A request whose optional audience/brand sections are present (channel
list deliberately unrecognized), used to instantiate the conditional
theorems. -/
def reqOK : GenerateRequest where
  title := "T"
  brief := "B"
  channels := ["tiktok"]
  audience_target := some {}
  brand_assets := some {}

/-- Witness for `C4_channel_collections` at a concrete completed run. -/
theorem C4_witness :
    (finalJob noCredEnv reqOK).status = "completed" ∧
    ∃ r, (finalJob noCredEnv reqOK).result = some (.ok r) ∧
      r.multimodal_copies.length = reqOK.channels.length ∧
      r.images.length = reqOK.channels.length ∧
      r.multimodal_copies.map Copy.channel = reqOK.channels ∧
      r.images = reqOK.channels.map (fun ch =>
        generate_image noCredEnv (mkChannelData reqOK
          (rag_retrieve noCredEnv reqOK.brand_profile_id reqOK.title reqOK.brief) ch)) :=
  ⟨by decide, C4_channel_collections noCredEnv reqOK (by decide)⟩

/-- C7 (counterexample): for the unrecognized channel `tiktok` the text
generator does *not* select a default/general family — the template it
uses is one of the four channel-specific families (the email one). -/
theorem C7_counterexample :
    ¬ (textPromptTemplateFor "tiktok" ∉
        [textPromptTemplateFor "email", textPromptTemplateFor "instagram",
         textPromptTemplateFor "facebook", textPromptTemplateFor "twitter"]) := by
  intro hnot
  apply hnot
  have hh : textPromptTemplateFor "tiktok" = textPromptTemplateFor "email" := rfl
  rw [hh]
  exact List.mem_cons_self _ _

/-- C7 (amended): a request whose optional audience/brand sections are
present never fails, whatever its channel identifiers; for an
unrecognized channel the *prompt composer* selects the `default` family,
while the *text generator* and the *image generator* fall back to the
email channel's template/configuration. -/
theorem C7_amended :
    ∀ (env : Env) (payload : GenerateRequest) (aud : AudienceTarget) (ba : BrandAssets),
      payload.audience_target = some aud →
      payload.brand_assets = some ba →
      (finalJob env payload).status = "completed" ∧
      ∀ ch : String, ch ∉ ["email", "instagram", "facebook", "twitter"] →
        promptify_template_key ch = "default" ∧
        textPromptTemplateFor ch = textEmailTemplate ∧
        imageConfigFor ch = imageEmailConfig := by
  intro env payload aud ba ha hb
  constructor
  · obtain ⟨r, hr⟩ := runPipeline_ok_of_some env ha hb
    unfold finalJob
    rw [hr]
  · intro ch hch
    simp only [List.mem_cons, List.not_mem_nil, or_false, not_or] at hch
    obtain ⟨h1, h2, h3, h4⟩ := hch
    have e1 : ("email" == ch) = false := beq_eq_false_iff_ne.mpr (fun hh => h1 hh.symm)
    have e2 : ("instagram" == ch) = false := beq_eq_false_iff_ne.mpr (fun hh => h2 hh.symm)
    have e3 : ("facebook" == ch) = false := beq_eq_false_iff_ne.mpr (fun hh => h3 hh.symm)
    have e4 : ("twitter" == ch) = false := beq_eq_false_iff_ne.mpr (fun hh => h4 hh.symm)
    refine ⟨?_, ?_, ?_⟩
    · unfold promptify_template_key
      rw [if_neg (by simp [h1]), if_neg (by simp [h2, h3, h4])]
    · unfold textPromptTemplateFor CHANNEL_PROMPTS
      simp [List.find?, e1, e2, e3, e4]
    · unfold imageConfigFor CHANNEL_IMAGE_CONFIG
      simp [List.find?, e1, e2, e3, e4]

/-- Witness for `C7_amended` at a concrete environment, request and
unrecognized channel. -/
theorem C7_witness :
    reqOK.audience_target = some {} ∧
    reqOK.brand_assets = some {} ∧
    "tiktok" ∉ ["email", "instagram", "facebook", "twitter"] ∧
    (finalJob noCredEnv reqOK).status = "completed" ∧
    promptify_template_key "tiktok" = "default" ∧
    textPromptTemplateFor "tiktok" = textEmailTemplate ∧
    imageConfigFor "tiktok" = imageEmailConfig := by
  have h := C7_amended noCredEnv reqOK {} {} rfl rfl
  have h2 := h.2 "tiktok" (by decide)
  exact ⟨rfl, rfl, by decide, h.1, h2.1, h2.2.1, h2.2.2⟩

/-- The fallback prompt format asserted by the spec (§4.3): `generate
content for <channel>: <title> — <brief>`.  Stated from the spec's words,
to be compared with the composer's actual fallback. -/
def specFallbackPrompt (channel title brief : String) : String :=
  "generate content for " ++ channel ++ ": " ++ title ++ " — " ++ brief

/-- A Jinja render oracle that always fails (e.g. on a missing field). -/
def failRender : String → List (String × String) → Except String String :=
  fun _ _ => .error "missing field"

/-- A concrete composer input (no channel key, as in the orchestrator's
call). -/
def inpC8 : PromptifyInput where
  title := some "Summer Sale"
  brief := some "50% off"

/-- C8 (counterexample): when rendering fails, the composer's fallback is
not the spec's `generate content for <channel>: <title> — <brief>` string
(the code says `Create marketing content for <channel>: <title> - <brief>`). -/
theorem C8_counterexample :
    promptify failRender inpC8 ≠ specFallbackPrompt "general" "Summer Sale" "50% off" := by
  decide

/-- C8 (amended): the composer never raises — it is total, and whenever
Jinja rendering fails it returns the minimal deterministic prompt
`Create marketing content for <channel>: <title> - <brief>`. -/
theorem C8_amended :
    ∀ (render : String → List (String × String) → Except String String)
      (input : PromptifyInput),
      (∀ t ctx, ∃ e, render t ctx = .error e) →
      promptify render input =
        "Create marketing content for " ++ input.channel.getD "general" ++ ": " ++
          input.title.getD "Untitled" ++ " - " ++ input.brief.getD "" := by
  intro render input hfail
  obtain ⟨e, he⟩ := hfail
    (((PROMPT_TEMPLATES.find? (fun kv =>
        kv.1 == promptify_template_key (input.channel.getD "general"))).map (·.2)).getD
      promptifyDefaultTemplate)
    [("title", input.title.getD "Untitled"), ("brief", input.brief.getD ""),
     ("channel", input.channel.getD "general"),
     ("brand_profile_id", input.brand_profile_id.getD "demo"),
     ("brand_context", input.brand_context.getD "No specific brand context provided.")]
  simp only [promptify]
  rw [he]

/-- Witness for `C8_amended` at a concrete failing renderer and input. -/
theorem C8_witness :
    (∀ t ctx, ∃ e, failRender t ctx = .error e) ∧
    promptify failRender inpC8 =
      "Create marketing content for general: Summer Sale - 50% off" := by
  have h := C8_amended failRender inpC8 (fun t ctx => ⟨"missing field", rfl⟩)
  exact ⟨fun t ctx => ⟨"missing field", rfl⟩, by rw [h]; rfl⟩

lemma ite_add_indicator (a : Bool) (s z : ℚ) :
    (if a then s + z else s) = s + (if a then z else 0) := by
  cases a <;> simp

lemma ite_or_collapse (a b : Bool) (s z : ℚ) :
    (if a then s + z else if b then s + z else s) = s + (if a || b then z else 0) := by
  cases a <;> cases b <;> simp

/-- Claim-side length bonus: 0.1 for channel-appropriate length bounds. -/
def lengthBonus (content channel : String) : ℚ :=
  if (channel == "twitter" && content.length < 200) ||
      ((channel == "facebook" || channel == "instagram") &&
        (100 < content.length && content.length < 400)) then 1/10 else 0

/-- Claim-side hashtag bonus: 0.1 for channel-appropriate hashtag
density. -/
def hashtagBonus (content channel : String) : ℚ :=
  if (channel == "instagram" &&
        (5 ≤ content.toList.count '#' && content.toList.count '#' ≤ 12)) ||
      (channel == "twitter" &&
        (1 ≤ content.toList.count '#' && content.toList.count '#' ≤ 3)) then 1/10 else 0

/-- Claim-side call-to-action bonus: 0.1 for CTA vocabulary. -/
def ctaBonus (content : String) : ℚ :=
  if ["click", "visit", "shop", "buy", "learn", "discover", "try", "get"].any
      (fun w => strContains (pyLower content) w) then 1/10 else 0

/-- C9: the engagement score is the base 0.7 plus the three independent
0.1 bonuses (length, hashtag density, CTA vocabulary), capped at 1.0, and
therefore always lies in `[0.7, 1.0]`. -/
theorem C9_engagement_score :
    ∀ (content channel : String) (aud : AudienceTarget),
      calculate_engagement_score content channel aud =
        min 1 (7/10 + lengthBonus content channel +
          hashtagBonus content channel + ctaBonus content) ∧
      7/10 ≤ calculate_engagement_score content channel aud ∧
      calculate_engagement_score content channel aud ≤ 1 := by
  intro content channel aud
  have heq : calculate_engagement_score content channel aud =
      min 1 (7/10 + lengthBonus content channel +
        hashtagBonus content channel + ctaBonus content) := by
    simp only [calculate_engagement_score]
    rw [ite_add_indicator, ite_or_collapse, ite_or_collapse]
    unfold lengthBonus hashtagBonus ctaBonus
    congr 1
  have hb1 : (0:ℚ) ≤ lengthBonus content channel ∧ lengthBonus content channel ≤ 1/10 := by
    unfold lengthBonus; split_ifs <;> norm_num
  have hb2 : (0:ℚ) ≤ hashtagBonus content channel ∧ hashtagBonus content channel ≤ 1/10 := by
    unfold hashtagBonus; split_ifs <;> norm_num
  have hb3 : (0:ℚ) ≤ ctaBonus content ∧ ctaBonus content ≤ 1/10 := by
    unfold ctaBonus; split_ifs <;> norm_num
  refine ⟨heq, ?_, ?_⟩
  · rw [heq]
    exact le_min (by norm_num) (by linarith [hb1.1, hb2.1, hb3.1])
  · rw [heq]
    exact min_le_left _ _

lemma avg_replicate (n : ℕ) (c : ℚ) :
    (List.replicate n c).sum / (max ((List.replicate n c).length : ℚ) 1) =
      if n = 0 then 0 else c := by
  cases n with
  | zero => simp
  | succ m =>
    have hone : (1 : ℚ) ≤ ((m + 1 : ℕ) : ℚ) := by exact_mod_cast Nat.succ_le_succ (Nat.zero_le m)
    have hne : ((m + 1 : ℕ) : ℚ) ≠ 0 := by positivity
    simp only [List.sum_replicate, List.length_replicate, Nat.succ_ne_zero, if_false,
      max_eq_left hone, nsmul_eq_mul]
    exact mul_div_cancel_left₀ c hne

/-- Evaluated-mode overall score in closed form: only the image URLs and
the (non-)emptiness of the copies list matter; the LLM capability never
does (the internal evaluators die on an undefined name and take their
defaults). -/
lemma evaluated_overall_closed (llm : LLMChat) (content : Content) :
    (score_content (some llm) content).overall_score =
      round2 ((if content.copies = [] then 0 else (7:ℚ)/10) * (4/10) +
        (content.images.enum.map (fun iu => evaluate_image_quality iu.2 iu.1)).sum /
          (max ((content.images.length : ℕ) : ℚ) 1) * (3/10) +
        (8/10) * (2/10) + (7/10) * (1/10)) := by
  simp only [score_content]
  rw [copy_scores_replicate]
  rw [avg_replicate]
  simp only [evaluate_brand_consistency, evaluate_engagement_potential, undefinedOpenaiClient,
    List.length_map, List.enum_length]
  simp only [List.length_eq_zero]

/-- C10 (counterexample): the evaluated-mode overall score does *not*
depend only on the image URLs — with the same single image, an empty
copies list scores 0.47 while a one-copy batch scores 0.75. -/
theorem C10_counterexample :
    (⟨[], ["u"]⟩ : Content).images = (⟨["a"], ["u"]⟩ : Content).images ∧
    (score_content (some (fun _ => none)) ⟨[], ["u"]⟩).overall_score = 47/100 ∧
    (score_content (some (fun _ => none)) ⟨["a"], ["u"]⟩).overall_score = 75/100 ∧
    (47 : ℚ)/100 ≠ 75/100 := by
  refine ⟨rfl, ?_, ?_, by norm_num⟩
  · simp [score_content, evaluate_copy_quality, evaluate_image_quality,
      evaluate_brand_consistency, evaluate_engagement_potential, undefinedOpenaiClient,
      round2, strContains, strContainsAux, listIsPrefix]
    norm_num
  · simp [score_content, evaluate_copy_quality, evaluate_image_quality,
      evaluate_brand_consistency, evaluate_engagement_potential, undefinedOpenaiClient,
      round2, strContains, strContainsAux, listIsPrefix]
    norm_num

/-- C10 (amended): in evaluated mode, whatever the LLM capability
returns, every per-copy quality score is exactly 0.7, brand consistency
is exactly 0.8 and engagement potential exactly 0.7 (the evaluators
reference the undefined name `openai_client` and always take their
exception defaults); consequently the overall score depends only on the
image URLs *and on whether the copies list is empty*. -/
theorem C10_amended :
    ∀ (llm : LLMChat) (content : Content),
      (score_content (some llm) content).metrics.copy_scores =
        some (List.replicate content.copies.length ((7:ℚ)/10)) ∧
      (score_content (some llm) content).brand_consistency = 8/10 ∧
      (score_content (some llm) content).engagement_potential = 7/10 ∧
      ∀ (llm2 : LLMChat) (content2 : Content),
        content2.images = content.images →
        (content2.copies = [] ↔ content.copies = []) →
        (score_content (some llm2) content2).overall_score =
          (score_content (some llm) content).overall_score := by
  intro llm content
  refine ⟨?_, ?_, ?_, ?_⟩
  · simp only [score_content]
    rw [copy_scores_replicate]
  · simp only [score_content, evaluate_brand_consistency, undefinedOpenaiClient]
    norm_num [round2]
  · simp only [score_content, evaluate_engagement_potential, undefinedOpenaiClient]
    norm_num [round2]
  · intro llm2 content2 himg hiff
    rw [evaluated_overall_closed, evaluated_overall_closed, himg]
    congr 1
    rw [if_congr hiff rfl rfl]

/-- Witness for `C10_amended`: two one-copy batches with the same image
and different copy text and different LLM oracles get the same overall
score. -/
theorem C10_witness :
    (⟨["b"], ["u"]⟩ : Content).images = (⟨["a"], ["u"]⟩ : Content).images ∧
    ((⟨["b"], ["u"]⟩ : Content).copies = [] ↔ (⟨["a"], ["u"]⟩ : Content).copies = []) ∧
    (score_content (some (fun _ => some "x")) ⟨["b"], ["u"]⟩).overall_score =
      (score_content (some (fun _ => none)) ⟨["a"], ["u"]⟩).overall_score := by
  refine ⟨rfl, by simp, ?_⟩
  exact (C10_amended (fun _ => none) ⟨["a"], ["u"]⟩).2.2.2
    (fun _ => some "x") ⟨["b"], ["u"]⟩ rfl (by simp)

end MCG
